import Mathlib

/-!
Verification development for the single-seat riichi game-state tracker
(libriichi PlayerState and Bot).

Tiles are identified by naturals in the closed 34-kind space (0..33).
The concealed hand is represented as the multiset (list) of its tiles;
the sum of the 34-kind count vector of that list is its length.

The bodies of the per-event state transition (the State Tracker), the
Action Candidate Resolver, the Validator predicate and the protocol
parser are not part of the given sources (only their declarations and
callers are); those definitions are modelled from the specification and
are marked as such in their doc comments.  The parts that are present
in the sources (PlayerState.new, the update_json / validate_action_json
wrappers, brief_info, Bot.react) are translated from the source.
-/

namespace Mortal

/-- Action-candidate capability set, modelled from the spec: the Resolver
produces an unordered capability set covering discard, chi, pon, kan,
riichi, tsumo, ron, nine-kinds abortive draw and pass. -/
structure ActionCandidate where
  can_dahai : Bool := false
  can_chi : Bool := false
  can_pon : Bool := false
  can_kan : Bool := false
  can_riichi : Bool := false
  can_tsumo_agari : Bool := false
  can_ron_agari : Bool := false
  can_kyushu : Bool := false
  can_pass : Bool := false
deriving DecidableEq

/-- Whether any action at all is offered (used by Bot.react to decide
whether to consult the decision layer). -/
def ActionCandidate.can_act (c : ActionCandidate) : Bool :=
  c.can_dahai || c.can_chi || c.can_pon || c.can_kan || c.can_riichi ||
  c.can_tsumo_agari || c.can_ron_agari || c.can_kyushu

/-- Protocol events, modelled from the spec: one variant of the tagged
union per game event the tracker reacts to.  Seat indices are relative,
0 being the tracked seat. -/
inductive Event where
  | start_game (id : Nat)
  | start_kyoku (tiles : List Nat) (doraMarker : Nat) (oyaIdx : Nat)
      (kyokuN : Nat) (honbaN : Nat) (kyotakuN : Nat)
  | tsumo (actor : Nat) (pai : Nat)
  | dahai (actor : Nat) (pai : Nat)
  | chi (actor : Nat) (pai : Nat) (consumed : List Nat)
  | pon (actor : Nat) (pai : Nat) (consumed : List Nat)
  | daiminkan (actor : Nat) (pai : Nat) (consumed : List Nat)
  | kakan (actor : Nat) (pai : Nat)
  | ankan (actor : Nat) (pai : Nat)
  | dora (pai : Nat)
  | reach (actor : Nat)
  | reach_accepted (actor : Nat)
  | hora (actor : Nat)
  | ryukyoku
  | end_kyoku
  | end_game
deriving DecidableEq

/-- True exactly on the hand-start event, which resets hand-scoped state. -/
def Event.isStartKyoku : Event → Bool
  | .start_kyoku _ _ _ _ _ _ => true
  | _ => false

/-- True on events that may legitimately touch the same-cycle furiten
deferred flag: hand start and discards. -/
def Event.touchesSameCycle : Event → Bool
  | .start_kyoku _ _ _ _ _ _ => true
  | .dahai _ _ => true
  | _ => false

/-- PlayerState: the tracked seat's complete observable view, translated
from the source struct (player_state.rs); big per-kind boolean arrays are
represented as lists of the kinds that are set, and the concealed hand as
the list of its tiles.  The extra field furiten_permanent is modelled from
the spec: it latches the permanent component of the furiten state, and
in_kyoku scopes the hand-boundary lifecycle. -/
structure PlayerState where
  player_id : Nat := 0
  bakaze : Nat := 27
  jikaze : Nat := 27
  kyoku : Nat := 0
  honba : Nat := 0
  kyotaku : Nat := 0
  scores : List Int := [0, 0, 0, 0]
  oya : Nat := 0
  dora_indicators : List Nat := []
  kawa : List (List (Option Nat)) := [[], [], [], []]
  kawa_overview : List (List Nat) := [[], [], [], []]
  fuuro_overview : List (List (List Nat)) := [[], [], [], []]
  ankan_overview : List (List Nat) := [[], [], [], []]
  riichi_declared : List Bool := [false, false, false, false]
  riichi_accepted : List Bool := [false, false, false, false]
  tiles_left : Nat := 0
  shanten : Int := 0
  tehai : List Nat := []
  waits : List Nat := []
  discarded_tiles : List Nat := []
  forbidden_tiles : List Nat := []
  last_self_tsumo : Option Nat := none
  last_kawa_tile : Option Nat := none
  last_cans : ActionCandidate := {}
  at_furiten : Bool := false
  to_mark_same_cycle_furiten : Bool := false
  furiten_permanent : Bool := false
  kans_on_board : Nat := 0
  is_menzen : Bool := false
  chis : List Nat := []
  pons : List Nat := []
  minkans : List Nat := []
  ankans : List Nat := []
  doras_owned : List Nat := [0, 0, 0, 0]
  doras_seen : Nat := 0
  tehai_len_div3 : Nat := 0
  in_kyoku : Bool := false
deriving DecidableEq

/-- Constructor, translated from the source: PlayerState::new(player_id)
builds the default state with only player_id set. -/
def PlayerState.new (player_id : Nat) : PlayerState :=
  { player_id := player_id }

/-- Number of open and closed melds of the tracked seat (a kan counted
as one group). -/
def meldCount (s : PlayerState) : Nat :=
  s.chis.length + s.pons.length + s.minkans.length + s.ankans.length

/-- Sum of the 34-kind concealed tile count vector of the tracked seat. -/
def tileTotal (s : PlayerState) : Nat :=
  Finset.sum (Finset.range 34) (fun t => s.tehai.count t)

/-- Hand Evaluator interface, modelled from the spec: a black box over
the concealed tile multiset returning shanten number, winning-tile set,
win predicate, and whether some discard reaches tenpai. -/
structure HandEval where
  shanten : List Nat → Int
  waits : List Nat → List Nat
  agari : List Nat → Bool
  tenpaiDiscard : List Nat → Bool

/-- Removes the given tiles from the hand one by one, failing if any of
them is not present (with multiplicity). -/
def removeTiles : List Nat → List Nat → Option (List Nat)
  | te, [] => some te
  | te, t :: ts => if t ∈ te then removeTiles (te.erase t) ts else none

/-- Whether the three kinds form a sequential run within one suit. -/
def runWith (p a b : Nat) : Bool :=
  let lo := min p (min a b)
  let hi := max p (max a b)
  let mid := p + a + b - lo - hi
  decide (hi < 27) && decide (hi = lo + 2) && decide (mid = lo + 1) &&
  decide (lo / 9 = hi / 9)

/-- Whether some concealed two-tile combination forms a run with pai. -/
def chiPossible (te : List Nat) (pai : Nat) : Bool :=
  decide (pai < 27) &&
  (List.range 27).any (fun a => (List.range 27).any (fun b =>
    runWith pai a b && (removeTiles te [a, b]).isSome))

/-- Terminal or honor kind. -/
def isYaochu (t : Nat) : Bool :=
  decide (27 ≤ t) || decide (t % 9 = 0) || decide (t % 9 = 8)

/-- Modelled from the spec: nine-kinds abortive draw is offered only on
the very first discard opportunity before any call, with at least nine
distinct terminal or honor kinds in hand. -/
def nineKindsEligible (s : PlayerState) (te : List Nat) : Bool :=
  s.kawa_overview.all (fun p => p.isEmpty) &&
  s.fuuro_overview.all (fun p => p.isEmpty) &&
  decide (9 ≤ ((List.range 34).filter (fun t => isYaochu t && te.contains t)).length)

/-- Action Candidate Resolver for the tracked seat's own turn (after a
self draw or a call), modelled from the spec section 4.2. -/
def resolveSelfTurn (W : HandEval) (te : List Nat) (s : PlayerState) : ActionCandidate :=
  { can_dahai := true
    can_kan := te.any (fun t => te.count t = 4) || s.pons.any (fun t => te.contains t)
    can_riichi := s.is_menzen && !(s.riichi_accepted.getD 0 false) &&
      W.tenpaiDiscard te && decide (4 ≤ s.tiles_left) &&
      decide (1000 ≤ s.scores.getD 0 0)
    can_tsumo_agari := W.agari te
    can_kyushu := nineKindsEligible s te }

/-- Action Candidate Resolver for a reaction to another seat's discard,
modelled from the spec section 4.2; ron is suppressed entirely while
permanent or same-cycle furiten is active, and pass is available
whenever any other candidate is offered. -/
def resolveReaction (s : PlayerState) (actor pai : Nat) : ActionCandidate :=
  let chiF := decide (actor = 3) && chiPossible s.tehai pai
  let ponF := decide (2 ≤ s.tehai.count pai)
  let kanF := decide (3 ≤ s.tehai.count pai)
  let ronF := s.waits.contains pai && !s.at_furiten
  { can_chi := chiF
    can_pon := ponF
    can_kan := kanF
    can_ron_agari := ronF
    can_pass := chiF || ponF || kanF || ronF }

/-- Recomputes the hand-derived fields (waits and shanten) via the Hand
Evaluator and performs the permanent furiten check, modelled from the
spec: on every recomputation of waits, if any tile of the winning-tile
set is present in the own-discard bitset, the permanent component is
latched for the rest of the hand, and the queried furiten flag is the
permanent component joined with the pending same-cycle flag. -/
def recomputeWaits (W : HandEval) (s : PlayerState) : PlayerState :=
  let w := W.waits s.tehai
  let perm := s.furiten_permanent || w.any (fun t => s.discarded_tiles.contains t)
  { s with waits := w
           shanten := W.shanten s.tehai
           furiten_permanent := perm
           at_furiten := perm || s.to_mark_same_cycle_furiten }

/-- Appends one meld group to a seat's exposed meld overview. -/
def pushFuuro (fo : List (List (List Nat))) (actor : Nat) (grp : List Nat) :
    List (List (List Nat)) :=
  fo.set actor ((fo.getD actor []) ++ [grp])

/-- Appends one closed-kan kind to a seat's closed-kan overview. -/
def pushAnkanOv (ao : List (List Nat)) (actor : Nat) (pai : Nat) : List (List Nat) :=
  ao.set actor ((ao.getD actor []) ++ [pai])

/-- State Tracker transition, modelled from the spec sections 4.1 and
4.4: applies one event, updating shared bookkeeping and, for events that
make the tracked seat eligible to act, recomputing derived fields and
invoking the Resolver.  Bounded-array overflow and out-of-phase events
are internal invariant breaches, surfaced as errors that abort the
instance (spec section 7). -/
def update (W : HandEval) (s : PlayerState) : Event → Except String PlayerState
  | .start_game _ => .ok s
  | .end_game => .ok s
  | .end_kyoku => .ok { s with in_kyoku := false }
  | .hora _ => .ok s
  | .ryukyoku => .ok s
  | .reach actor =>
    if actor < 4 then
      .ok { s with riichi_declared := s.riichi_declared.set actor true }
    else .error "reach: bad actor"
  | .reach_accepted actor =>
    if actor < 4 then
      .ok { s with riichi_accepted := s.riichi_accepted.set actor true }
    else .error "reach_accepted: bad actor"
  | .dora pai =>
    if pai < 34 ∧ s.dora_indicators.length < 5 then
      .ok { s with dora_indicators := s.dora_indicators ++ [pai]
                   doras_seen := s.doras_seen + 1 }
    else .error "dora: overflow"
  | .start_kyoku tiles doraMarker oyaIdx kyokuN honbaN kyotakuN =>
    if tiles.length = 13 ∧ (∀ x ∈ tiles, x < 34) ∧ doraMarker < 34 ∧ oyaIdx < 4 then
      .ok (recomputeWaits W { s with
        in_kyoku := true
        tehai := tiles
        tehai_len_div3 := 4
        chis := [], pons := [], minkans := [], ankans := []
        kawa := [[], [], [], []]
        kawa_overview := [[], [], [], []]
        fuuro_overview := [[], [], [], []]
        ankan_overview := [[], [], [], []]
        dora_indicators := [doraMarker]
        discarded_tiles := []
        waits := []
        at_furiten := false
        furiten_permanent := false
        to_mark_same_cycle_furiten := false
        riichi_declared := [false, false, false, false]
        riichi_accepted := [false, false, false, false]
        forbidden_tiles := []
        last_self_tsumo := none
        last_kawa_tile := none
        last_cans := {}
        kans_on_board := 0
        is_menzen := true
        oya := oyaIdx
        kyoku := kyokuN
        honba := honbaN
        kyotaku := kyotakuN
        tiles_left := 70
        doras_seen := 0
        doras_owned := [0, 0, 0, 0] })
    else .error "start_kyoku: malformed"
  | .tsumo actor pai =>
    if s.in_kyoku = true ∧ actor < 4 ∧ pai < 34 ∧ 0 < s.tiles_left then
      if actor = 0 then
        if s.tehai.length % 3 = 1 then
          .ok (recomputeWaits W { s with
            tehai := pai :: s.tehai
            tiles_left := s.tiles_left - 1
            last_self_tsumo := some pai
            last_cans := resolveSelfTurn W (pai :: s.tehai) s })
        else .error "tsumo: out of phase"
      else
        if s.tehai.length % 3 = 1 then
          .ok { s with tiles_left := s.tiles_left - 1, last_cans := {} }
        else .error "tsumo: out of phase"
    else .error "tsumo: malformed"
  | .dahai actor pai =>
    if s.in_kyoku = true ∧ actor < 4 ∧ pai < 34 ∧
        (s.kawa.getD actor []).length < 24 ∧
        (s.kawa_overview.getD actor []).length < 24 then
      let kawa2 := s.kawa.set actor ((s.kawa.getD actor []) ++ [some pai])
      let kawaOv2 := s.kawa_overview.set actor ((s.kawa_overview.getD actor []) ++ [pai])
      if actor = 0 then
        if pai ∈ s.tehai ∧ s.tehai.length % 3 = 2 then
          .ok (recomputeWaits W { s with
            tehai := s.tehai.erase pai
            kawa := kawa2
            kawa_overview := kawaOv2
            discarded_tiles := pai :: s.discarded_tiles
            to_mark_same_cycle_furiten := false
            last_self_tsumo := none
            last_kawa_tile := some pai
            last_cans := {} })
        else .error "dahai: tile not in hand"
      else
        if s.tehai.length % 3 = 1 then
          let expose := s.waits.contains pai
          .ok { s with
            kawa := kawa2
            kawa_overview := kawaOv2
            last_kawa_tile := some pai
            last_self_tsumo := none
            to_mark_same_cycle_furiten := s.to_mark_same_cycle_furiten || expose
            at_furiten := s.at_furiten || expose
            last_cans := resolveReaction s actor pai }
        else .error "dahai: out of phase"
    else .error "dahai: malformed"
  | .chi actor pai consumed =>
    if s.in_kyoku = true ∧ actor < 4 ∧ pai < 34 ∧ (∀ x ∈ consumed, x < 34) ∧
        consumed.length = 2 then
      if actor = 0 then
        if s.tehai.length % 3 = 1 then
          match removeTiles s.tehai consumed with
          | some tehai2 =>
            .ok (recomputeWaits W { s with
              tehai := tehai2
              chis := s.chis ++ [pai]
              tehai_len_div3 := s.tehai_len_div3 - 1
              is_menzen := false
              fuuro_overview := pushFuuro s.fuuro_overview 0 (pai :: consumed)
              last_cans := { can_dahai := true } })
          | none => .error "chi: tiles not in hand"
        else .error "chi: out of phase"
      else
        if s.tehai.length % 3 = 1 then
          .ok { s with fuuro_overview := pushFuuro s.fuuro_overview actor (pai :: consumed)
                       last_cans := {} }
        else .error "chi: out of phase"
    else .error "chi: malformed"
  | .pon actor pai consumed =>
    if s.in_kyoku = true ∧ actor < 4 ∧ pai < 34 ∧ (∀ x ∈ consumed, x < 34) ∧
        consumed.length = 2 then
      if actor = 0 then
        if s.tehai.length % 3 = 1 then
          match removeTiles s.tehai consumed with
          | some tehai2 =>
            .ok (recomputeWaits W { s with
              tehai := tehai2
              pons := s.pons ++ [pai]
              tehai_len_div3 := s.tehai_len_div3 - 1
              is_menzen := false
              fuuro_overview := pushFuuro s.fuuro_overview 0 (pai :: consumed)
              last_cans := { can_dahai := true } })
          | none => .error "pon: tiles not in hand"
        else .error "pon: out of phase"
      else
        if s.tehai.length % 3 = 1 then
          .ok { s with fuuro_overview := pushFuuro s.fuuro_overview actor (pai :: consumed)
                       last_cans := {} }
        else .error "pon: out of phase"
    else .error "pon: malformed"
  | .daiminkan actor pai consumed =>
    if s.in_kyoku = true ∧ actor < 4 ∧ pai < 34 ∧ (∀ x ∈ consumed, x < 34) ∧
        consumed.length = 3 then
      if actor = 0 then
        if s.tehai.length % 3 = 1 then
          match removeTiles s.tehai consumed with
          | some tehai2 =>
            .ok (recomputeWaits W { s with
              tehai := tehai2
              minkans := s.minkans ++ [pai]
              tehai_len_div3 := s.tehai_len_div3 - 1
              is_menzen := false
              kans_on_board := s.kans_on_board + 1
              fuuro_overview := pushFuuro s.fuuro_overview 0 (pai :: consumed)
              last_cans := {} })
          | none => .error "daiminkan: tiles not in hand"
        else .error "daiminkan: out of phase"
      else
        if s.tehai.length % 3 = 1 then
          .ok { s with kans_on_board := s.kans_on_board + 1
                       fuuro_overview := pushFuuro s.fuuro_overview actor (pai :: consumed)
                       last_cans := {} }
        else .error "daiminkan: out of phase"
    else .error "daiminkan: malformed"
  | .kakan actor pai =>
    if s.in_kyoku = true ∧ actor < 4 ∧ pai < 34 then
      if actor = 0 then
        if pai ∈ s.tehai ∧ pai ∈ s.pons ∧ s.tehai.length % 3 = 2 then
          .ok (recomputeWaits W { s with
            tehai := s.tehai.erase pai
            pons := s.pons.erase pai
            minkans := s.minkans ++ [pai]
            kans_on_board := s.kans_on_board + 1
            last_cans := {} })
        else .error "kakan: invalid"
      else
        if s.tehai.length % 3 = 1 then
          .ok { s with kans_on_board := s.kans_on_board + 1, last_cans := {} }
        else .error "kakan: out of phase"
    else .error "kakan: malformed"
  | .ankan actor pai =>
    if s.in_kyoku = true ∧ actor < 4 ∧ pai < 34 then
      if actor = 0 then
        if s.tehai.length % 3 = 2 then
          match removeTiles s.tehai [pai, pai, pai, pai] with
          | some tehai2 =>
            .ok (recomputeWaits W { s with
              tehai := tehai2
              ankans := s.ankans ++ [pai]
              tehai_len_div3 := s.tehai_len_div3 - 1
              ankan_overview := pushAnkanOv s.ankan_overview 0 pai
              kans_on_board := s.kans_on_board + 1
              last_cans := {} })
          | none => .error "ankan: tiles not in hand"
        else .error "ankan: out of phase"
      else
        if s.tehai.length % 3 = 1 then
          .ok { s with kans_on_board := s.kans_on_board + 1
                       ankan_overview := pushAnkanOv s.ankan_overview actor pai
                       last_cans := {} }
        else .error "ankan: out of phase"
    else .error "ankan: malformed"

/-- Applies a whole event sequence in protocol order, stopping at the
first failure. -/
def applyAll (W : HandEval) (s : PlayerState) : List Event → Except String PlayerState
  | [] => .ok s
  | e :: es =>
    match update W s e with
    | .ok s2 => applyAll W s2 es
    | .error m => .error m

/-- Externally proposed actions, modelled from the spec: one variant per
candidate category of the Resolver. -/
inductive Action where
  | dahai (pai : Nat)
  | chi (pai : Nat) (consumed : List Nat)
  | pon (pai : Nat)
  | daiminkan (pai : Nat)
  | kakan (pai : Nat)
  | ankan (pai : Nat)
  | reach
  | hora
  | ryukyoku
  | pass
deriving DecidableEq

/-- Whether a tile may currently be discarded: all tiles in hand unless
locked into an accepted riichi, in which case only the just-drawn tile
is legal (modelled from the spec section 4.2). -/
def discardOk (s : PlayerState) (pai : Nat) : Bool :=
  if s.riichi_accepted.getD 0 false then decide (s.last_self_tsumo = some pai)
  else decide (pai ∈ s.tehai) && !(s.forbidden_tiles.contains pai)

/-- Whether a specific chi combination is legal against the last discard. -/
def chiOk (s : PlayerState) (pai : Nat) : List Nat → Bool
  | [a, b] => runWith pai a b && (removeTiles s.tehai [a, b]).isSome
  | _ => false

/-- Membership in the action-candidate set most recently produced by the
Resolver: the capability flags cached in last_cans refined by the
action's specific tile or combination against the current state
(modelled from the spec sections 4.2 and 4.3). -/
def actionInCandidates (s : PlayerState) : Action → Bool
  | .dahai pai => s.last_cans.can_dahai && discardOk s pai
  | .chi pai consumed =>
    s.last_cans.can_chi && decide (s.last_kawa_tile = some pai) && chiOk s pai consumed
  | .pon pai =>
    s.last_cans.can_pon && decide (s.last_kawa_tile = some pai) &&
    decide (2 ≤ s.tehai.count pai)
  | .daiminkan pai =>
    s.last_cans.can_kan && decide (s.last_kawa_tile = some pai) &&
    decide (3 ≤ s.tehai.count pai)
  | .kakan pai =>
    s.last_cans.can_kan && s.pons.contains pai && decide (1 ≤ s.tehai.count pai)
  | .ankan pai => s.last_cans.can_kan && decide (s.tehai.count pai = 4)
  | .reach => s.last_cans.can_riichi
  | .hora => s.last_cans.can_tsumo_agari || s.last_cans.can_ron_agari
  | .ryukyoku => s.last_cans.can_kyushu
  | .pass => s.last_cans.can_pass

/-- Validator, modelled from the spec section 4.3: recomputes the same
legality predicate used by the Resolver for the action's category and
checks the action's specific tile or target against it, reporting a
typed rule violation naming the unmet condition. -/
def validate_action (s : PlayerState) : Action → Except String Unit
  | .dahai pai =>
    if !s.last_cans.can_dahai then .error "not eligible to discard"
    else if s.riichi_accepted.getD 0 false then
      if s.last_self_tsumo = some pai then .ok ()
      else .error "riichi allows only the forced discard"
    else if !(decide (pai ∈ s.tehai)) then .error "tile not in hand"
    else if s.forbidden_tiles.contains pai then .error "tile is forbidden"
    else .ok ()
  | .chi pai consumed =>
    if !s.last_cans.can_chi then .error "not eligible to chi"
    else if !(decide (s.last_kawa_tile = some pai)) then .error "chi targets a stale tile"
    else if !(chiOk s pai consumed) then .error "chi combination is invalid"
    else .ok ()
  | .pon pai =>
    if !s.last_cans.can_pon then .error "not eligible to pon"
    else if !(decide (s.last_kawa_tile = some pai)) then .error "pon targets a stale tile"
    else if !(decide (2 ≤ s.tehai.count pai)) then .error "pon lacks tiles"
    else .ok ()
  | .daiminkan pai =>
    if !s.last_cans.can_kan then .error "not eligible to kan"
    else if !(decide (s.last_kawa_tile = some pai)) then .error "kan targets a stale tile"
    else if !(decide (3 ≤ s.tehai.count pai)) then .error "kan lacks tiles"
    else .ok ()
  | .kakan pai =>
    if !s.last_cans.can_kan then .error "not eligible to kan"
    else if !(s.pons.contains pai) then .error "kakan needs a matching pon"
    else if !(decide (1 ≤ s.tehai.count pai)) then .error "kakan lacks the tile"
    else .ok ()
  | .ankan pai =>
    if !s.last_cans.can_kan then .error "not eligible to kan"
    else if !(decide (s.tehai.count pai = 4)) then .error "ankan needs all four tiles"
    else .ok ()
  | .reach =>
    if s.last_cans.can_riichi then .ok () else .error "not eligible to riichi"
  | .hora =>
    if s.last_cans.can_tsumo_agari || s.last_cans.can_ron_agari then .ok ()
    else .error "not eligible to win"
  | .ryukyoku =>
    if s.last_cans.can_kyushu then .ok () else .error "not eligible to abort"
  | .pass =>
    if s.last_cans.can_pass then .ok () else .error "nothing to pass on"

/-- State-passing rendering of the validator call, mirroring the borrow
of the receiver in the source (validate_action takes the state by
shared reference): the state travels through the call unchanged. -/
def validate_action_state (s : PlayerState) (a : Action) :
    PlayerState × Except String Unit :=
  (s, validate_action s a)

/-- Modelled from the spec: the protocol parser for events is external
(a serde schema); it is modelled as a recognizer of a fragment of the
protocol grammar in which every unrecognized line fails to parse. -/
def parseEvent (line : String) : Option Event :=
  if line = "end_kyoku" then some .end_kyoku
  else if line = "ryukyoku" then some .ryukyoku
  else if line = "end_game" then some .end_game
  else if line = "start_game" then some (.start_game 0)
  else if line = "hora" then some (.hora 0)
  else none

/-- Modelled from the spec: the protocol parser for actions is external;
modelled as a recognizer of a fragment of the action grammar. -/
def parseAction (line : String) : Option Action :=
  if line = "pass" then some .pass
  else if line = "hora" then some .hora
  else if line = "reach" then some .reach
  else if line = "ryukyoku" then some .ryukyoku
  else none

/-- Modelled from the spec: events on the Bot boundary may carry an
optional suppress-action-derivation flag (can_act); a prefixed line
form carries can_act = false. -/
def parseEventCA (line : String) : Option (Option Bool × Event) :=
  match parseEvent line with
  | some e => some (none, e)
  | none =>
    if line.startsWith "noact " then
      (parseEvent (line.drop 6)).map (fun e => (some false, e))
    else none

/-- update_json, translated from the source: parse the line first and
return the parse failure without touching the state; otherwise apply
the event.  The state component of the result is the state after the
call. -/
def update_json (W : HandEval) (s : PlayerState) (line : String) :
    PlayerState × Except String ActionCandidate :=
  match parseEvent line with
  | none => (s, .error "failed to parse event")
  | some e =>
    match update W s e with
    | .ok s2 => (s2, .ok s2.last_cans)
    | .error m => (s, .error m)

/-- validate_action_json, translated from the source: parse, then
validate; read-only. -/
def validate_action_json (s : PlayerState) (line : String) : Except String Unit :=
  match parseAction line with
  | none => .error "failed to parse action"
  | some a => validate_action s a

/-- Bot pairs the tracked state with the event log kept for the agent,
translated from the source (mjai_bot.rs). -/
structure Bot where
  state : PlayerState
  log : List Event
deriving DecidableEq

/-- Fresh Bot, translated from the source Bot::new. -/
def Bot.new (player_id : Nat) : Bot :=
  { state := PlayerState.new player_id, log := [] }

/-- Bot.react, translated from the source: parse the line (failure is
fatal for the call only), maintain the log, apply the event to the
tracked state, and only when neither the argument flag nor the
event-carried flag suppresses action derivation and some action is
available, consult the decision layer (modelled as a function argument)
for a reaction. -/
def Bot.react (W : HandEval) (agent : PlayerState → List Event → String)
    (b : Bot) (line : String) (can_act : Bool) :
    Bot × Except String (Option String) :=
  match parseEventCA line with
  | none => (b, .error "failed to parse event")
  | some (ca, e) =>
    let log2 :=
      match e with
      | .start_game _ => b.log
      | .end_kyoku => []
      | .end_game => b.log
      | _ => b.log ++ [e]
    match update W b.state e with
    | .error m => (b, .error m)
    | .ok s2 =>
      if !can_act || decide (ca = some false) || !s2.last_cans.can_act then
        (⟨s2, log2⟩, .ok none)
      else
        (⟨s2, log2⟩, .ok (some (agent s2 log2)))

/-- Tile rendering (modelled from the spec: the tile display form is
external to the given sources). -/
def tileToString (t : Nat) : String :=
  if t < 9 then toString (t + 1) ++ "m"
  else if t < 18 then toString (t - 8) ++ "p"
  else if t < 27 then toString (t - 17) ++ "s"
  else toString (t - 26) ++ "z"

/-- Bool rendering. -/
def boolToString (b : Bool) : String :=
  cond b "true" "false"

/-- Joins strings with a separator. -/
def joinSep (sep : String) : List String → String
  | [] => ""
  | [x] => x
  | x :: y :: xs => x ++ sep ++ joinSep sep (y :: xs)

/-- Debug-list rendering of tile kinds. -/
def tileListToString (l : List Nat) : String :=
  "[" ++ joinSep ", " (l.map tileToString) ++ "]"

/-- Debug-list rendering of naturals. -/
def natListToString (l : List Nat) : String :=
  "[" ++ joinSep ", " (l.map toString) ++ "]"

/-- Debug-list rendering of integers. -/
def intListToString (l : List Int) : String :=
  "[" ++ joinSep ", " (l.map toString) ++ "]"

/-- Debug rendering of the exposed melds of one seat. -/
def fuuroToString (fo : List (List Nat)) : String :=
  "[" ++ joinSep ", " (fo.map tileListToString) ++ "]"

/-- Debug rendering of an optional tile. -/
def optTileToString : Option Nat → String
  | none => "None"
  | some t => "Some(" ++ tileToString t ++ ")"

/-- Rendering of the concealed hand (the source helper tiles_to_string,
modelled from the spec as a plain tile-by-tile rendering). -/
def tiles_to_string (te : List Nat) : String :=
  joinSep " " (te.map tileToString)

/-- Debug rendering of the cached action-candidate set (the derived
debug format of the source is external; modelled as a flag listing). -/
def acToString (c : ActionCandidate) : String :=
  "ActionCandidate(dahai=" ++ boolToString c.can_dahai ++
  ", chi=" ++ boolToString c.can_chi ++
  ", pon=" ++ boolToString c.can_pon ++
  ", kan=" ++ boolToString c.can_kan ++
  ", riichi=" ++ boolToString c.can_riichi ++
  ", tsumo=" ++ boolToString c.can_tsumo_agari ++
  ", ron=" ++ boolToString c.can_ron_agari ++
  ", kyushu=" ++ boolToString c.can_kyushu ++
  ", pass=" ++ boolToString c.can_pass ++ ")"

/-- The entry of one seat's discard pile at one row, padded with none
past the end of the pile exactly as the source pads the zipped columns
with empty cells. -/
def kawaCell (s : PlayerState) (seat i : Nat) : Option Nat :=
  (s.kawa.getD seat []).getD i none

/-- Whether a zipped discard row is empty in all four columns. -/
def kawaRowIsEmpty (s : PlayerState) (i : Nat) : Bool :=
  (kawaCell s 0 i).isNone && (kawaCell s 1 i).isNone &&
  (kawaCell s 2 i).isNone && (kawaCell s 3 i).isNone

/-- Row index padded to width two, as in the source format. -/
def pad2 (n : Nat) : String :=
  if n < 10 then " " ++ toString n else toString n

/-- One cell of the zipped discard listing. -/
def kawaCellString : Option Nat → String
  | none => "-"
  | some t => tileToString t

/-- One row of the zipped discard listing: the row index followed by the
four seats' cells in columns. -/
def kawaRowString (s : PlayerState) (i : Nat) : String :=
  pad2 i ++ ". " ++ kawaCellString (kawaCell s 0 i) ++ "\t" ++
  kawaCellString (kawaCell s 1 i) ++ "\t" ++
  kawaCellString (kawaCell s 2 i) ++ "\t" ++
  kawaCellString (kawaCell s 3 i)

/-- The per-seat-column chronological discard listing, translated from
the source: rows are taken while at least one column still has an
entry. -/
def zippedKawaString (s : PlayerState) : String :=
  joinSep "\n"
    (((List.range 24).takeWhile (fun i => !(kawaRowIsEmpty s i))).map (kawaRowString s))

/-- The chunks of the debug report, translated from the source format
string of brief_info, in source order: each literal label followed by
the rendering of the corresponding field. -/
def briefChunks (s : PlayerState) : List String :=
  [ "player (abs): ", toString s.player_id,
    "\noya (rel): ", toString s.oya,
    "\nkyoku: ", tileToString s.bakaze, toString (s.kyoku + 1), "-", toString s.honba,
    "\njikaze: ", tileToString s.jikaze,
    "\nscore (rel): ", intListToString s.scores,
    "\ntehai: ", tiles_to_string s.tehai,
    "\nfuuro: ", fuuroToString (s.fuuro_overview.getD 0 []),
    "\nankan: ", tileListToString (s.ankan_overview.getD 0 []),
    "\ntehai len: ", toString s.tehai_len_div3,
    "\nshanten: ", toString s.shanten,
    "\nfuriten: ", boolToString s.at_furiten,
    "\nwaits: ", tileListToString s.waits,
    "\ndora indicators: ", tileListToString s.dora_indicators,
    "\ndoras owned: ", natListToString s.doras_owned,
    "\ndoras seen: ", toString s.doras_seen,
    "\naction candidates: ", acToString s.last_cans,
    "\nlast self tsumo: ", optTileToString s.last_self_tsumo,
    "\nlast kawa tile: ", optTileToString s.last_kawa_tile,
    "\ntiles left: ", toString s.tiles_left,
    "\nkawa:\n", zippedKawaString s ]

/-- Concatenation of a chunk list. -/
def joinAll : List String → String
  | [] => ""
  | c :: cs => c ++ joinAll cs

/-- brief_info, translated from the source: the fixed-format multi-line
human readable report. -/
def brief_info (s : PlayerState) : String :=
  joinAll (briefChunks s)

/-- Extracts the state of a successful application, with a fresh state
as the (never used in anger) fallback. -/
def getOk : Except String PlayerState → PlayerState
  | .ok s => s
  | .error _ => PlayerState.new 0

/-- A concrete trivial Hand Evaluator used for concrete runs: never
tenpai, never winning. -/
def evalZero : HandEval :=
  { shanten := fun _ => 1
    waits := fun _ => []
    agari := fun _ => false
    tenpaiDiscard := fun _ => false }

/-- A concrete Hand Evaluator that always reports kind 0 as the single
winning tile (used for concrete furiten runs). -/
def evalWait0 : HandEval :=
  { shanten := fun _ => 0
    waits := fun _ => [0]
    agari := fun _ => false
    tenpaiDiscard := fun _ => true }

/-- A concrete 13-tile deal containing two copies of kind 0. -/
def deal13 : List Nat :=
  [0, 0, 1, 2, 3, 4, 5, 6, 7, 8, 9, 10, 11]

/-- Whether a result is a success. -/
def exOk {α : Type} : Except String α → Bool
  | .ok _ => true
  | .error _ => false

/-- A concrete hand start. -/
def skEvent : Event :=
  .start_kyoku deal13 4 0 0 0 0

/-- A concrete run in which the tracked seat calls pon on another
seat's discard: afterwards it holds no just-drawn tile yet must
discard. -/
def c1CexEvents : List Event :=
  [skEvent, .dahai 1 0, .pon 0 0 [0, 0]]

/-- A concrete run in which the tracked seat discards its single wait,
latching permanent furiten. -/
def furitenEvents : List Event :=
  [skEvent, .tsumo 0 12, .dahai 0 0]

/-- A concrete reachable tenpai state waiting on kind 0. -/
def tenpaiState : PlayerState :=
  getOk (applyAll evalWait0 (PlayerState.new 0) [skEvent])

/-- A concrete reachable state holding a just-drawn tile. -/
def drawnState : PlayerState :=
  getOk (applyAll evalWait0 (PlayerState.new 0) [skEvent, .tsumo 0 12])

/-- The structural invariant maintained across every successfully
applied event: the four discard piles and their projection are bounded
by 24, the dora-indicator sequence by 5, the permanent furiten latch
covers any wait found among the own discards, and within a hand the
concealed-hand length, meld count, pending-discard flag and the
tehai_len_div3 counter are mutually consistent. -/
def GoodState (s : PlayerState) : Prop :=
  s.kawa.length = 4 ∧
  s.kawa_overview.length = 4 ∧
  (∀ p ∈ s.kawa, p.length ≤ 24) ∧
  (∀ p ∈ s.kawa_overview, p.length ≤ 24) ∧
  s.dora_indicators.length ≤ 5 ∧
  (s.waits.any (fun t => s.discarded_tiles.contains t) = true →
    s.furiten_permanent = true) ∧
  (s.in_kyoku = true →
    (∀ x ∈ s.tehai, x < 34) ∧
    s.tehai.length + 3 * meldCount s = 13 + cond s.last_cans.can_dahai 1 0 ∧
    s.tehai_len_div3 + meldCount s = 4)

theorem removeTiles_length : ∀ {ts te r : List Nat},
    removeTiles te ts = some r → r.length + ts.length = te.length
  | [], te, r, h => by
    simp only [removeTiles, Option.some.injEq] at h
    subst h; simp
  | t :: ts, te, r, h => by
    simp only [removeTiles] at h
    split at h
    case isTrue hm =>
      have hrec := removeTiles_length h
      have hl : (te.erase t).length = te.length - 1 := List.length_erase_of_mem hm
      have hp : 0 < te.length := List.length_pos_of_mem hm
      simp only [List.length_cons]
      omega
    case isFalse hm => exact absurd h (by simp)

theorem removeTiles_subset : ∀ {ts te r : List Nat},
    removeTiles te ts = some r → ∀ x ∈ r, x ∈ te
  | [], te, r, h => by
    simp only [removeTiles, Option.some.injEq] at h
    subst h; exact fun x hx => hx
  | t :: ts, te, r, h => by
    simp only [removeTiles] at h
    split at h
    case isTrue hm =>
      exact fun x hx => List.mem_of_mem_erase (removeTiles_subset h x hx)
    case isFalse hm => exact absurd h (by simp)

theorem recomputeWaits_furiten_check {W : HandEval} {s : PlayerState}
    (hh : (recomputeWaits W s).waits.any
      (fun t => (recomputeWaits W s).discarded_tiles.contains t) = true) :
    (recomputeWaits W s).furiten_permanent = true := by
  simp only [recomputeWaits] at hh ⊢
  simp only [Bool.or_eq_true]
  right
  simpa using hh

theorem recomputeWaits_perm_mono {W : HandEval} {s : PlayerState}
    (h : s.furiten_permanent = true) :
    (recomputeWaits W s).furiten_permanent = true := by
  simp [recomputeWaits, h]

theorem set_append_le {α : Type} {l : List (List α)} {i : Nat} {x : α}
    (hB : ∀ p ∈ l, p.length ≤ 24) (hlt : (l.getD i []).length < 24) :
    ∀ p ∈ l.set i ((l.getD i []) ++ [x]), p.length ≤ 24 := by
  intro p hp
  rcases List.mem_or_eq_of_mem_set hp with hmem | heq
  · exact hB p hmem
  · subst heq
    simp only [List.length_append, List.length_singleton]
    omega

theorem update_good {W : HandEval} {s s2 : PlayerState} {e : Event}
    (hg : GoodState s) (h : update W s e = .ok s2) : GoodState s2 := by
  obtain ⟨hk1, hk2, hk3, hk4, hd5, hf, hi⟩ := hg
  cases e with
  | start_game id =>
    simp only [update, Except.ok.injEq] at h
    subst h
    exact ⟨hk1, hk2, hk3, hk4, hd5, hf, hi⟩
  | end_game =>
    simp only [update, Except.ok.injEq] at h
    subst h
    exact ⟨hk1, hk2, hk3, hk4, hd5, hf, hi⟩
  | hora actor =>
    simp only [update, Except.ok.injEq] at h
    subst h
    exact ⟨hk1, hk2, hk3, hk4, hd5, hf, hi⟩
  | ryukyoku =>
    simp only [update, Except.ok.injEq] at h
    subst h
    exact ⟨hk1, hk2, hk3, hk4, hd5, hf, hi⟩
  | end_kyoku =>
    simp only [update, Except.ok.injEq] at h
    subst h
    exact ⟨hk1, hk2, hk3, hk4, hd5, hf, fun hh => by simp at hh⟩
  | reach actor =>
    simp only [update] at h
    split at h
    · simp only [Except.ok.injEq] at h
      subst h
      exact ⟨hk1, hk2, hk3, hk4, hd5, hf, hi⟩
    · cases h
  | reach_accepted actor =>
    simp only [update] at h
    split at h
    · simp only [Except.ok.injEq] at h
      subst h
      exact ⟨hk1, hk2, hk3, hk4, hd5, hf, hi⟩
    · cases h
  | dora pai =>
    simp only [update] at h
    split at h
    case isTrue hc =>
      simp only [Except.ok.injEq] at h
      subst h
      refine ⟨hk1, hk2, hk3, hk4, ?_, hf, hi⟩
      simp only [List.length_append, List.length_singleton]
      omega
    case isFalse hc => cases h
  | start_kyoku tiles dm oyaIdx kN hN ktN =>
    simp only [update] at h
    split at h
    case isTrue hc =>
      obtain ⟨h13, h34, hdm, hoya⟩ := hc
      simp only [Except.ok.injEq] at h
      subst h
      refine ⟨rfl, rfl, by simp [recomputeWaits], by simp [recomputeWaits],
        by simp [recomputeWaits], ?_, ?_⟩
      · intro hh
        simp [recomputeWaits] at hh
      · intro _
        refine ⟨h34, ?_, ?_⟩ <;> simp [recomputeWaits, meldCount, h13]
    case isFalse hc => cases h
  | tsumo actor pai =>
    simp only [update] at h
    split at h
    case isTrue hc =>
      obtain ⟨hin, hact4, hp34, htl⟩ := hc
      split at h
      case isTrue hact =>
        split at h
        case isTrue hlen =>
          simp only [Except.ok.injEq] at h
          subst h
          refine ⟨hk1, hk2, hk3, hk4, hd5, fun hh => recomputeWaits_furiten_check hh, ?_⟩
          intro _
          obtain ⟨t34, hl13, hdm3⟩ := hi hin
          refine ⟨?_, ?_, hdm3⟩
          · intro x hx
            rcases List.mem_cons.mp hx with hx0 | hx1
            · exact hx0 ▸ hp34
            · exact t34 x hx1
          · cases hcd : s.last_cans.can_dahai <;> simp [hcd] at hl13 <;>
              simp [recomputeWaits, resolveSelfTurn, meldCount] at * <;> omega
        case isFalse hlen => cases h
      case isFalse hact =>
        split at h
        case isTrue hlen =>
          simp only [Except.ok.injEq] at h
          subst h
          refine ⟨hk1, hk2, hk3, hk4, hd5, hf, ?_⟩
          intro _
          obtain ⟨t34, hl13, hdm3⟩ := hi hin
          refine ⟨t34, ?_, hdm3⟩
          cases hcd : s.last_cans.can_dahai <;> simp [hcd] at hl13 <;>
            simp [meldCount] at * <;> omega
        case isFalse hlen => cases h
    case isFalse hc => cases h
  | dahai actor pai =>
    simp only [update] at h
    split at h
    case isTrue hc =>
      obtain ⟨hin, hact4, hp34, hkl, hol⟩ := hc
      split at h
      case isTrue hact =>
        split at h
        case isTrue hmem =>
          obtain ⟨hpm, hlen⟩ := hmem
          simp only [Except.ok.injEq] at h
          subst h
          refine ⟨?_, ?_, ?_, ?_, hd5, fun hh => recomputeWaits_furiten_check hh, ?_⟩
          · simpa [recomputeWaits] using hk1
          · simpa [recomputeWaits] using hk2
          · exact set_append_le hk3 hkl
          · exact set_append_le hk4 hol
          · intro _
            obtain ⟨t34, hl13, hdm3⟩ := hi hin
            refine ⟨?_, ?_, hdm3⟩
            · exact fun x hx => t34 x (List.mem_of_mem_erase hx)
            · have hle : (s.tehai.erase pai).length = s.tehai.length - 1 :=
                List.length_erase_of_mem hpm
              have hp1 : 0 < s.tehai.length := List.length_pos_of_mem hpm
              cases hcd : s.last_cans.can_dahai <;> simp [hcd] at hl13 <;>
                simp [recomputeWaits, meldCount, hle] at * <;> omega
        case isFalse hmem => cases h
      case isFalse hact =>
        split at h
        case isTrue hlen =>
          simp only [Except.ok.injEq] at h
          subst h
          refine ⟨?_, ?_, ?_, ?_, hd5, hf, ?_⟩
          · simpa using hk1
          · simpa using hk2
          · exact set_append_le hk3 hkl
          · exact set_append_le hk4 hol
          · intro _
            obtain ⟨t34, hl13, hdm3⟩ := hi hin
            refine ⟨t34, ?_, hdm3⟩
            cases hcd : s.last_cans.can_dahai <;> simp [hcd] at hl13 <;>
              simp [resolveReaction, meldCount] at * <;> omega
        case isFalse hlen => cases h
    case isFalse hc => cases h
  | chi actor pai consumed =>
    simp only [update] at h
    split at h
    case isTrue hc =>
      obtain ⟨hin, hact4, hp34, hc34, hclen⟩ := hc
      split at h
      case isTrue hact =>
        split at h
        case isTrue hlen =>
          split at h
          case _ tehai2 hrm =>
            simp only [Except.ok.injEq] at h
            subst h
            refine ⟨hk1, hk2, hk3, hk4, hd5, fun hh => recomputeWaits_furiten_check hh, ?_⟩
            intro _
            obtain ⟨t34, hl13, hdm3⟩ := hi hin
            have hrl := removeTiles_length hrm
            refine ⟨fun x hx => t34 x (removeTiles_subset hrm x hx), ?_, ?_⟩ <;>
              cases hcd : s.last_cans.can_dahai <;> simp [hcd] at hl13 <;>
                simp [recomputeWaits, meldCount, List.length_append, hclen] at * <;> omega
          case _ hrm => cases h
        case isFalse hlen => cases h
      case isFalse hact =>
        split at h
        case isTrue hlen =>
          simp only [Except.ok.injEq] at h
          subst h
          refine ⟨hk1, hk2, hk3, hk4, hd5, hf, ?_⟩
          intro _
          obtain ⟨t34, hl13, hdm3⟩ := hi hin
          refine ⟨t34, ?_, hdm3⟩
          cases hcd : s.last_cans.can_dahai <;> simp [hcd] at hl13 <;>
            simp [meldCount] at * <;> omega
        case isFalse hlen => cases h
    case isFalse hc => cases h
  | pon actor pai consumed =>
    simp only [update] at h
    split at h
    case isTrue hc =>
      obtain ⟨hin, hact4, hp34, hc34, hclen⟩ := hc
      split at h
      case isTrue hact =>
        split at h
        case isTrue hlen =>
          split at h
          case _ tehai2 hrm =>
            simp only [Except.ok.injEq] at h
            subst h
            refine ⟨hk1, hk2, hk3, hk4, hd5, fun hh => recomputeWaits_furiten_check hh, ?_⟩
            intro _
            obtain ⟨t34, hl13, hdm3⟩ := hi hin
            have hrl := removeTiles_length hrm
            refine ⟨fun x hx => t34 x (removeTiles_subset hrm x hx), ?_, ?_⟩ <;>
              cases hcd : s.last_cans.can_dahai <;> simp [hcd] at hl13 <;>
                simp [recomputeWaits, meldCount, List.length_append, hclen] at * <;> omega
          case _ hrm => cases h
        case isFalse hlen => cases h
      case isFalse hact =>
        split at h
        case isTrue hlen =>
          simp only [Except.ok.injEq] at h
          subst h
          refine ⟨hk1, hk2, hk3, hk4, hd5, hf, ?_⟩
          intro _
          obtain ⟨t34, hl13, hdm3⟩ := hi hin
          refine ⟨t34, ?_, hdm3⟩
          cases hcd : s.last_cans.can_dahai <;> simp [hcd] at hl13 <;>
            simp [meldCount] at * <;> omega
        case isFalse hlen => cases h
    case isFalse hc => cases h
  | daiminkan actor pai consumed =>
    simp only [update] at h
    split at h
    case isTrue hc =>
      obtain ⟨hin, hact4, hp34, hc34, hclen⟩ := hc
      split at h
      case isTrue hact =>
        split at h
        case isTrue hlen =>
          split at h
          case _ tehai2 hrm =>
            simp only [Except.ok.injEq] at h
            subst h
            refine ⟨hk1, hk2, hk3, hk4, hd5, fun hh => recomputeWaits_furiten_check hh, ?_⟩
            intro _
            obtain ⟨t34, hl13, hdm3⟩ := hi hin
            have hrl := removeTiles_length hrm
            refine ⟨fun x hx => t34 x (removeTiles_subset hrm x hx), ?_, ?_⟩ <;>
              cases hcd : s.last_cans.can_dahai <;> simp [hcd] at hl13 <;>
                simp [recomputeWaits, meldCount, List.length_append, hclen] at * <;> omega
          case _ hrm => cases h
        case isFalse hlen => cases h
      case isFalse hact =>
        split at h
        case isTrue hlen =>
          simp only [Except.ok.injEq] at h
          subst h
          refine ⟨hk1, hk2, hk3, hk4, hd5, hf, ?_⟩
          intro _
          obtain ⟨t34, hl13, hdm3⟩ := hi hin
          refine ⟨t34, ?_, hdm3⟩
          cases hcd : s.last_cans.can_dahai <;> simp [hcd] at hl13 <;>
            simp [meldCount] at * <;> omega
        case isFalse hlen => cases h
    case isFalse hc => cases h
  | kakan actor pai =>
    simp only [update] at h
    split at h
    case isTrue hc =>
      obtain ⟨hin, hact4, hp34⟩ := hc
      split at h
      case isTrue hact =>
        split at h
        case isTrue hmem =>
          obtain ⟨hpt, hpp, hlen⟩ := hmem
          simp only [Except.ok.injEq] at h
          subst h
          refine ⟨hk1, hk2, hk3, hk4, hd5, fun hh => recomputeWaits_furiten_check hh, ?_⟩
          intro _
          obtain ⟨t34, hl13, hdm3⟩ := hi hin
          have hte : (s.tehai.erase pai).length = s.tehai.length - 1 :=
            List.length_erase_of_mem hpt
          have hpe : (s.pons.erase pai).length = s.pons.length - 1 :=
            List.length_erase_of_mem hpp
          have htp : 0 < s.tehai.length := List.length_pos_of_mem hpt
          have hpp2 : 0 < s.pons.length := List.length_pos_of_mem hpp
          refine ⟨fun x hx => t34 x (List.mem_of_mem_erase hx), ?_, ?_⟩ <;>
            cases hcd : s.last_cans.can_dahai <;> simp [hcd] at hl13 <;>
              simp [recomputeWaits, meldCount, List.length_append, hte, hpe] at * <;> omega
        case isFalse hmem => cases h
      case isFalse hact =>
        split at h
        case isTrue hlen =>
          simp only [Except.ok.injEq] at h
          subst h
          refine ⟨hk1, hk2, hk3, hk4, hd5, hf, ?_⟩
          intro _
          obtain ⟨t34, hl13, hdm3⟩ := hi hin
          refine ⟨t34, ?_, hdm3⟩
          cases hcd : s.last_cans.can_dahai <;> simp [hcd] at hl13 <;>
            simp [meldCount] at * <;> omega
        case isFalse hlen => cases h
    case isFalse hc => cases h
  | ankan actor pai =>
    simp only [update] at h
    split at h
    case isTrue hc =>
      obtain ⟨hin, hact4, hp34⟩ := hc
      split at h
      case isTrue hact =>
        split at h
        case isTrue hlen =>
          split at h
          case _ tehai2 hrm =>
            simp only [Except.ok.injEq] at h
            subst h
            refine ⟨hk1, hk2, hk3, hk4, hd5, fun hh => recomputeWaits_furiten_check hh, ?_⟩
            intro _
            obtain ⟨t34, hl13, hdm3⟩ := hi hin
            have hrl := removeTiles_length hrm
            refine ⟨fun x hx => t34 x (removeTiles_subset hrm x hx), ?_, ?_⟩ <;>
              cases hcd : s.last_cans.can_dahai <;> simp [hcd] at hl13 <;>
                simp [recomputeWaits, meldCount, List.length_append] at * <;> omega
          case _ hrm => cases h
        case isFalse hlen => cases h
      case isFalse hact =>
        split at h
        case isTrue hlen =>
          simp only [Except.ok.injEq] at h
          subst h
          refine ⟨hk1, hk2, hk3, hk4, hd5, hf, ?_⟩
          intro _
          obtain ⟨t34, hl13, hdm3⟩ := hi hin
          refine ⟨t34, ?_, hdm3⟩
          cases hcd : s.last_cans.can_dahai <;> simp [hcd] at hl13 <;>
            simp [meldCount] at * <;> omega
        case isFalse hlen => cases h
    case isFalse hc => cases h

theorem new_good (pid : Nat) : GoodState (PlayerState.new pid) := by
  refine ⟨rfl, rfl, ?_, ?_, ?_, ?_, ?_⟩ <;> simp [PlayerState.new]

theorem applyAll_good {W : HandEval} {es : List Event} {s0 s : PlayerState}
    (h0 : GoodState s0) (h : applyAll W s0 es = .ok s) : GoodState s := by
  induction es generalizing s0 with
  | nil =>
    simp only [applyAll, Except.ok.injEq] at h
    subst h
    exact h0
  | cons e es ih =>
    simp only [applyAll] at h
    split at h
    case _ s1 hu => exact ih (update_good h0 hu) h
    case _ m hu => cases h

theorem count_sum_eq_length {l : List Nat} {n : Nat} (h : ∀ x ∈ l, x < n) :
    Finset.sum (Finset.range n) (fun t => l.count t) = l.length := by
  induction l with
  | nil => simp
  | cons a l ih =>
    have ha : a ∈ Finset.range n := Finset.mem_range.mpr (h a (List.mem_cons_self a l))
    have ih2 := ih (fun x hx => h x (List.mem_cons_of_mem a hx))
    simp only [List.count_cons, List.length_cons, beq_iff_eq]
    rw [Finset.sum_add_distrib, ih2, Finset.sum_ite_eq (Finset.range n) a (fun _ => 1)]
    simp [ha]

theorem update_perm_mono {W : HandEval} {s s2 : PlayerState} {e : Event}
    (hsk : e.isStartKyoku = false) (h : update W s e = .ok s2)
    (hp : s.furiten_permanent = true) : s2.furiten_permanent = true := by
  cases e <;> simp [Event.isStartKyoku] at hsk <;>
    simp only [update] at h <;>
    (try (repeat' split at h)) <;>
    first
      | (simp only [Except.ok.injEq] at h; subst h;
         first
           | exact recomputeWaits_perm_mono hp
           | exact hp)
      | cases h

theorem applyAll_perm_mono {W : HandEval} {es : List Event} {s0 s : PlayerState}
    (hsk : ∀ e ∈ es, e.isStartKyoku = false) (h : applyAll W s0 es = .ok s)
    (hp : s0.furiten_permanent = true) : s.furiten_permanent = true := by
  induction es generalizing s0 with
  | nil =>
    simp only [applyAll, Except.ok.injEq] at h
    subst h
    exact hp
  | cons e es ih =>
    simp only [applyAll] at h
    split at h
    case _ s1 hu =>
      exact ih (fun x hx => hsk x (List.mem_cons_of_mem e hx)) h
        (update_perm_mono (hsk e (List.mem_cons_self e es)) hu hp)
    case _ m hu => cases h

theorem dahai_other_exposes {W : HandEval} {s s2 : PlayerState} {actor pai : Nat}
    (hact : actor ≠ 0) (hw : s.waits.contains pai = true)
    (h : update W s (.dahai actor pai) = .ok s2) :
    s2.to_mark_same_cycle_furiten = true ∧ s2.at_furiten = true := by
  simp only [update] at h
  rw [if_neg hact] at h
  repeat' split at h
  all_goals first
    | (simp only [Except.ok.injEq] at h; subst h;
       have hw2 : pai ∈ s.waits := by simpa using hw;
       constructor <;> simp [hw2])
    | cases h

theorem dahai_other_mark_eq {W : HandEval} {s s2 : PlayerState} {actor pai : Nat}
    (hact : actor ≠ 0) (h : update W s (.dahai actor pai) = .ok s2) :
    s2.to_mark_same_cycle_furiten =
      (s.to_mark_same_cycle_furiten || s.waits.contains pai) := by
  simp only [update] at h
  rw [if_neg hact] at h
  repeat' split at h
  all_goals first
    | (simp only [Except.ok.injEq] at h; subst h; rfl)
    | cases h

theorem dahai_self_clears {W : HandEval} {s s2 : PlayerState} {pai : Nat}
    (h : update W s (.dahai 0 pai) = .ok s2) :
    s2.to_mark_same_cycle_furiten = false := by
  simp only [update] at h
  repeat' split at h
  all_goals first
    | (simp only [Except.ok.injEq] at h; subst h; rfl)
    | simp_all

theorem update_same_cycle_frame {W : HandEval} {s s2 : PlayerState} {e : Event}
    (hts : e.touchesSameCycle = false) (h : update W s e = .ok s2) :
    s2.to_mark_same_cycle_furiten = s.to_mark_same_cycle_furiten := by
  cases e <;> simp [Event.touchesSameCycle] at hts <;>
    simp only [update] at h <;>
    (try (repeat' split at h)) <;>
    first
      | (simp only [Except.ok.injEq] at h; subst h; rfl)
      | cases h

theorem validate_ok_iff (s : PlayerState) (a : Action) :
    validate_action s a = .ok () ↔ actionInCandidates s a = true := by
  cases a <;>
    simp only [validate_action, actionInCandidates, discardOk] <;>
    (repeat' split) <;>
    simp_all

theorem chunk_data_infix {c : String} {l : List String} (hc : c ∈ l) :
    c.data <:+: (joinAll l).data := by
  induction l with
  | nil => cases hc
  | cons x xs ih =>
    rcases List.mem_cons.mp hc with h1 | h2
    · subst h1
      exact ⟨[], (joinAll xs).data, by simp [joinAll, String.data_append]⟩
    · obtain ⟨u, v, huv⟩ := ih h2
      exact ⟨x.data ++ u, v, by simp only [joinAll, String.data_append, List.append_assoc, huv]⟩

/-- C1 (counterexample): the claim that the concealed-plus-meld tile
total equals 14 exactly when the tracked seat holds a just-drawn tile is
false: after the concrete run deal, other-seat discard, pon by the
tracked seat, the total is 14 although no just-drawn tile is held. -/
theorem claim_C1_counterexample :
    exOk (applyAll evalZero (PlayerState.new 0) c1CexEvents) = true ∧
    (getOk (applyAll evalZero (PlayerState.new 0) c1CexEvents)).in_kyoku = true ∧
    tileTotal (getOk (applyAll evalZero (PlayerState.new 0) c1CexEvents)) +
      3 * meldCount (getOk (applyAll evalZero (PlayerState.new 0) c1CexEvents)) = 14 ∧
    (getOk (applyAll evalZero (PlayerState.new 0) c1CexEvents)).last_self_tsumo = none := by
  refine ⟨rfl, rfl, ?_, rfl⟩
  decide

/-- C1 (amended): after every successfully applied event of a reachable
in-hand state, the sum of the 34-kind tehai count vector plus 3 times
the number of open and closed melds equals 13 or 14; it equals 14
exactly when the tracked seat has a pending forced discard, that is,
holds a just-drawn tile or has just completed a chi or pon call; and
the derived tehai_len_div3 counter is consistent: it plus the meld
count is always 4. -/
theorem claim_C1_tile_count_invariant {W : HandEval} {pid : Nat} {es : List Event}
    {s : PlayerState} (h : applyAll W (PlayerState.new pid) es = .ok s)
    (hin : s.in_kyoku = true) :
    (tileTotal s + 3 * meldCount s = 13 ∨ tileTotal s + 3 * meldCount s = 14) ∧
    (tileTotal s + 3 * meldCount s = 14 ↔ s.last_cans.can_dahai = true) ∧
    s.tehai_len_div3 + meldCount s = 4 := by
  obtain ⟨t34, hl, hd⟩ := ((applyAll_good (new_good pid) h).2.2.2.2.2.2) hin
  have ht : tileTotal s = s.tehai.length := count_sum_eq_length t34
  rw [ht]
  cases hcd : s.last_cans.can_dahai <;> rw [hcd] at hl
  · simp only [Bool.cond_false] at hl
    exact ⟨Or.inl (by omega), by simp only [Bool.false_eq_true, iff_false]; omega, hd⟩
  · simp only [Bool.cond_true] at hl
    exact ⟨Or.inr (by omega), by simp only [iff_true]; omega, hd⟩

/-- C1 witness: the amended invariant evaluated on a concrete reachable
state holding a just-drawn tile. -/
theorem claim_C1_witness :
    (tileTotal drawnState + 3 * meldCount drawnState = 13 ∨
      tileTotal drawnState + 3 * meldCount drawnState = 14) ∧
    (tileTotal drawnState + 3 * meldCount drawnState = 14 ↔
      drawnState.last_cans.can_dahai = true) ∧
    drawnState.tehai_len_div3 + meldCount drawnState = 4 :=
  @claim_C1_tile_count_invariant evalWait0 0 [skEvent, Event.tsumo 0 12] drawnState rfl rfl

/-- C2: the permanent furiten component is latched the instant any tile
of the current winning-tile set is present in the tracked seat's own
discarded-tiles set, and once true it remains true after every
subsequent applied event until the next hand start. -/
theorem claim_C2_permanent_furiten {W : HandEval} {pid : Nat} {es : List Event}
    {s : PlayerState} (h : applyAll W (PlayerState.new pid) es = .ok s) :
    (s.waits.any (fun t => s.discarded_tiles.contains t) = true →
      s.furiten_permanent = true) ∧
    (∀ es2 s2, (∀ e ∈ es2, e.isStartKyoku = false) → applyAll W s es2 = .ok s2 →
      s.furiten_permanent = true → s2.furiten_permanent = true) :=
  ⟨(applyAll_good (new_good pid) h).2.2.2.2.2.1,
   fun _ _ hsk h2 hp => applyAll_perm_mono hsk h2 hp⟩

/-- C2 witness: after the tracked seat discards its single wait the
permanent latch is set and survives a further draw. -/
theorem claim_C2_witness :
    (getOk (applyAll evalWait0 (PlayerState.new 0) furitenEvents)).furiten_permanent = true ∧
    (getOk (applyAll evalWait0
        (getOk (applyAll evalWait0 (PlayerState.new 0) furitenEvents))
        [Event.tsumo 0 12])).furiten_permanent = true := by
  constructor
  · exact (@claim_C2_permanent_furiten evalWait0 0 furitenEvents
      (getOk (applyAll evalWait0 (PlayerState.new 0) furitenEvents)) rfl).1 rfl
  · exact (@claim_C2_permanent_furiten evalWait0 0 furitenEvents
      (getOk (applyAll evalWait0 (PlayerState.new 0) furitenEvents)) rfl).2
      [Event.tsumo 0 12] _ (by decide) rfl rfl

/-- C3: same-cycle furiten, carried by the deferred flag, is set
together with the furiten flag immediately after an event in which a
tile of the current winning-tile set is discarded by another seat; it
is false immediately after the tracked seat's own discard event; and
it is cleared by nothing else: an other-seat discard leaves the flag
equal to its old value joined with whether the discarded tile is a
wait (so a non-wait discard by another seat never clears it), and
every event other than a discard or a hand start leaves it unchanged
- never earlier and never later than the own next discard. -/
theorem claim_C3_same_cycle_furiten (W : HandEval) :
    (∀ s s2 actor pai, actor ≠ 0 → s.waits.contains pai = true →
      update W s (.dahai actor pai) = .ok s2 →
      s2.to_mark_same_cycle_furiten = true ∧ s2.at_furiten = true) ∧
    (∀ s s2 pai, update W s (.dahai 0 pai) = .ok s2 →
      s2.to_mark_same_cycle_furiten = false) ∧
    (∀ s s2 actor pai, actor ≠ 0 →
      update W s (.dahai actor pai) = .ok s2 →
      s2.to_mark_same_cycle_furiten =
        (s.to_mark_same_cycle_furiten || s.waits.contains pai)) ∧
    (∀ s s2 e, Event.touchesSameCycle e = false → update W s e = .ok s2 →
      s2.to_mark_same_cycle_furiten = s.to_mark_same_cycle_furiten) :=
  ⟨fun _ _ _ _ ha hw h => dahai_other_exposes ha hw h,
   fun _ _ _ h => dahai_self_clears h,
   fun _ _ _ _ ha h => dahai_other_mark_eq ha h,
   fun _ _ _ hts h => update_same_cycle_frame hts h⟩

/-- C3 witness: concrete exposure, clearing, non-wait other-seat
discard (both with the flag clear and with the flag set) and frame
instances. -/
theorem claim_C3_witness :
    (getOk (update evalWait0 tenpaiState (.dahai 1 0))).to_mark_same_cycle_furiten = true ∧
    (getOk (update evalWait0 tenpaiState (.dahai 1 0))).at_furiten = true ∧
    (getOk (update evalWait0 drawnState (.dahai 0 5))).to_mark_same_cycle_furiten = false ∧
    (getOk (update evalWait0 tenpaiState (.dahai 2 5))).to_mark_same_cycle_furiten =
      (tenpaiState.to_mark_same_cycle_furiten || tenpaiState.waits.contains 5) ∧
    (getOk (update evalWait0 (getOk (update evalWait0 tenpaiState (.dahai 1 0)))
        (.dahai 2 5))).to_mark_same_cycle_furiten =
      ((getOk (update evalWait0 tenpaiState (.dahai 1 0))).to_mark_same_cycle_furiten ||
        (getOk (update evalWait0 tenpaiState (.dahai 1 0))).waits.contains 5) ∧
    (getOk (update evalWait0 tenpaiState (.dora 8))).to_mark_same_cycle_furiten =
      tenpaiState.to_mark_same_cycle_furiten := by
  have h1 := (claim_C3_same_cycle_furiten evalWait0).1 tenpaiState
    (getOk (update evalWait0 tenpaiState (.dahai 1 0))) 1 0 (by decide) rfl rfl
  have h2 := (claim_C3_same_cycle_furiten evalWait0).2.1 drawnState
    (getOk (update evalWait0 drawnState (.dahai 0 5))) 5 rfl
  have h4 := (claim_C3_same_cycle_furiten evalWait0).2.2.1 tenpaiState
    (getOk (update evalWait0 tenpaiState (.dahai 2 5))) 2 5 (by decide) rfl
  have h5 := (claim_C3_same_cycle_furiten evalWait0).2.2.1
    (getOk (update evalWait0 tenpaiState (.dahai 1 0)))
    (getOk (update evalWait0 (getOk (update evalWait0 tenpaiState (.dahai 1 0)))
      (.dahai 2 5))) 2 5 (by decide) rfl
  have h3 := (claim_C3_same_cycle_furiten evalWait0).2.2.2 tenpaiState
    (getOk (update evalWait0 tenpaiState (.dora 8))) (.dora 8) (by decide) rfl
  exact ⟨h1.1, h1.2, h2, h4, h5, h3⟩

/-- C4: the validator accepts an action exactly when it belongs to the
action-candidate set most recently produced by the Resolver for the
state, as cached in last_cans and refined by the action's specific
tile or target. -/
theorem claim_C4_validate_iff_candidate (s : PlayerState) (a : Action) :
    validate_action s a = .ok () ↔ actionInCandidates s a = true :=
  validate_ok_iff s a

/-- C5: an input line that fails to parse against the protocol schema
makes the call return an error and leaves the state (and the Bot)
completely unchanged, for event updates, action validation and
Bot.react alike. -/
theorem claim_C5_malformed_input (W : HandEval)
    (agent : PlayerState → List Event → String) (s : PlayerState) (b : Bot)
    (line : String) (hE : parseEvent line = none) (hA : parseAction line = none)
    (hC : parseEventCA line = none) :
    (update_json W s line).1 = s ∧ exOk (update_json W s line).2 = false ∧
    validate_action_json s line = .error "failed to parse action" ∧
    (Bot.react W agent b line true).1 = b ∧
    exOk (Bot.react W agent b line true).2 = false := by
  refine ⟨?_, ?_, ?_, ?_, ?_⟩ <;>
    simp [update_json, validate_action_json, Bot.react, exOk, hE, hA, hC]

/-- C5 witness: a concrete unparseable line. -/
theorem claim_C5_witness :
    (update_json evalZero (PlayerState.new 0) "bogus").1 = PlayerState.new 0 ∧
    exOk (update_json evalZero (PlayerState.new 0) "bogus").2 = false ∧
    validate_action_json (PlayerState.new 0) "bogus" = .error "failed to parse action" ∧
    (Bot.react evalZero (fun _ _ => "x") (Bot.new 0) "bogus" true).1 = Bot.new 0 ∧
    exOk (Bot.react evalZero (fun _ _ => "x") (Bot.new 0) "bogus" true).2 = false :=
  claim_C5_malformed_input evalZero (fun _ _ => "x") (PlayerState.new 0) (Bot.new 0)
    "bogus" rfl rfl rfl

/-- C6: in every reachable state each of the four per-seat discard
piles and the per-seat discard projection contain at most 24 entries,
and the dora-indicator sequence contains at most 5 entries. -/
theorem claim_C6_pile_bounds {W : HandEval} {pid : Nat} {es : List Event}
    {s : PlayerState} (h : applyAll W (PlayerState.new pid) es = .ok s) :
    (∀ p ∈ s.kawa, p.length ≤ 24) ∧ (∀ p ∈ s.kawa_overview, p.length ≤ 24) ∧
    s.dora_indicators.length ≤ 5 :=
  ⟨(applyAll_good (new_good pid) h).2.2.1,
   (applyAll_good (new_good pid) h).2.2.2.1,
   (applyAll_good (new_good pid) h).2.2.2.2.1⟩

/-- C6 witness: the bounds evaluated on a concrete reachable state. -/
theorem claim_C6_witness :
    tenpaiState.dora_indicators.length ≤ 5 ∧
    (tenpaiState.kawa.getD 1 []).length ≤ 24 ∧
    (tenpaiState.kawa_overview.getD 1 []).length ≤ 24 := by
  have h := @claim_C6_pile_bounds evalWait0 0 [skEvent] tenpaiState rfl
  exact ⟨h.2.2, h.1 _ (by decide), h.2.1 _ (by decide)⟩

/-- C7: validation is read-only: the state component of the
state-passing validator run is the input state unchanged for every
action, valid or not, and its verdict is exactly the Resolver's
legality predicate for the action's category. -/
theorem claim_C7_validator_read_only (s : PlayerState) (a : Action) :
    (validate_action_state s a).1 = s ∧
    ((validate_action_state s a).2 = .ok () ↔ actionInCandidates s a = true) :=
  ⟨rfl, validate_ok_iff s a⟩

/-- C8: when action derivation is suppressed, Bot.react still applies
the event to the tracked state exactly as without the flag, and
returns none instead of a reaction; the event-carried flag suppresses
the reaction as well. -/
theorem claim_C8_suppressed_reaction (W : HandEval)
    (agent : PlayerState → List Event → String) (b : Bot) (line : String)
    (ca : Option Bool) (e : Event) (s2 : PlayerState)
    (hp : parseEventCA line = some (ca, e)) (hu : update W b.state e = .ok s2) :
    (Bot.react W agent b line false).1 = (Bot.react W agent b line true).1 ∧
    (Bot.react W agent b line false).1.state = s2 ∧
    (Bot.react W agent b line false).2 = .ok none ∧
    (ca = some false → (Bot.react W agent b line true).2 = .ok none) := by
  refine ⟨?_, ?_, ?_, fun hca => ?_⟩
  · simp [Bot.react, hp, hu, apply_ite]
  · simp [Bot.react, hp, hu]
  · simp [Bot.react, hp, hu]
  · simp [Bot.react, hp, hu, hca]

/-- C8 witness: a concrete suppressed reaction. -/
theorem claim_C8_witness :
    (Bot.react evalZero (fun _ _ => "x") (Bot.new 0) "end_kyoku" false).1 =
      (Bot.react evalZero (fun _ _ => "x") (Bot.new 0) "end_kyoku" true).1 ∧
    (Bot.react evalZero (fun _ _ => "x") (Bot.new 0) "end_kyoku" false).2 = .ok none := by
  have h := claim_C8_suppressed_reaction evalZero (fun _ _ => "x") (Bot.new 0)
    "end_kyoku" none .end_kyoku
    (getOk (update evalZero (Bot.new 0).state .end_kyoku)) rfl rfl
  exact ⟨h.1, h.2.2.1⟩

/-- C9 (counterexample): the debug report contains no rendering of the
stake counter: two states that differ only in the stake counter render
to the same report. -/
theorem claim_C9_counterexample :
    ({ PlayerState.new 7 with kyotaku := 1 } : PlayerState).kyotaku ≠
      ({ PlayerState.new 7 with kyotaku := 2 } : PlayerState).kyotaku ∧
    brief_info { PlayerState.new 7 with kyotaku := 1 } =
      brief_info { PlayerState.new 7 with kyotaku := 2 } :=
  ⟨by decide, rfl⟩

/-- C9 (amended): for every state, the debug report contains renderings
of the seat id, the relative dealer offset, the round and repeat
counters (the stake counter is not rendered), the seat wind, the
rotated scores, the concealed hand, the exposed melds, the closed
kans, the tehai_len_div3 concealed-hand length counter, the shanten
number, the furiten flag, the current waits, the dora indicators, the
owned and seen dora counts, the cached action-candidate set, the last
self-drawn tile, the last discarded tile, the remaining wall counter,
and the per-seat-column chronological discard listing. -/
theorem claim_C9_brief_info_contents (s : PlayerState) :
    (toString s.player_id).data <:+: (brief_info s).data ∧
    (toString s.oya).data <:+: (brief_info s).data ∧
    (tileToString s.bakaze).data <:+: (brief_info s).data ∧
    (toString (s.kyoku + 1)).data <:+: (brief_info s).data ∧
    (toString s.honba).data <:+: (brief_info s).data ∧
    (tileToString s.jikaze).data <:+: (brief_info s).data ∧
    (intListToString s.scores).data <:+: (brief_info s).data ∧
    (tiles_to_string s.tehai).data <:+: (brief_info s).data ∧
    (fuuroToString (s.fuuro_overview.getD 0 [])).data <:+: (brief_info s).data ∧
    (tileListToString (s.ankan_overview.getD 0 [])).data <:+: (brief_info s).data ∧
    (toString s.tehai_len_div3).data <:+: (brief_info s).data ∧
    (toString s.shanten).data <:+: (brief_info s).data ∧
    (boolToString s.at_furiten).data <:+: (brief_info s).data ∧
    (tileListToString s.waits).data <:+: (brief_info s).data ∧
    (tileListToString s.dora_indicators).data <:+: (brief_info s).data ∧
    (natListToString s.doras_owned).data <:+: (brief_info s).data ∧
    (toString s.doras_seen).data <:+: (brief_info s).data ∧
    (acToString s.last_cans).data <:+: (brief_info s).data ∧
    (optTileToString s.last_self_tsumo).data <:+: (brief_info s).data ∧
    (optTileToString s.last_kawa_tile).data <:+: (brief_info s).data ∧
    (toString s.tiles_left).data <:+: (brief_info s).data ∧
    (zippedKawaString s).data <:+: (brief_info s).data := by
  refine ⟨?_, ?_, ?_, ?_, ?_, ?_, ?_, ?_, ?_, ?_, ?_, ?_, ?_, ?_, ?_, ?_, ?_, ?_,
    ?_, ?_, ?_, ?_⟩ <;>
    exact chunk_data_infix (by simp [briefChunks])

/-- C10: a freshly constructed PlayerState has its player_id equal to
the argument and every other field at its default: shanten 0, empty
wall counter, empty hand and piles, empty meld lists, no dora
indicators, all riichi and furiten flags false, and a cached candidate
set offering no action at all. -/
theorem claim_C10_fresh_state (pid : Nat) :
    (PlayerState.new pid).player_id = pid ∧
    (PlayerState.new pid).shanten = 0 ∧
    (PlayerState.new pid).tiles_left = 0 ∧
    (PlayerState.new pid).tehai = [] ∧
    (∀ t : Nat, (PlayerState.new pid).tehai.count t = 0) ∧
    (PlayerState.new pid).kawa = [[], [], [], []] ∧
    (PlayerState.new pid).kawa_overview = [[], [], [], []] ∧
    (PlayerState.new pid).fuuro_overview = [[], [], [], []] ∧
    (PlayerState.new pid).ankan_overview = [[], [], [], []] ∧
    (PlayerState.new pid).chis = [] ∧
    (PlayerState.new pid).pons = [] ∧
    (PlayerState.new pid).minkans = [] ∧
    (PlayerState.new pid).ankans = [] ∧
    (PlayerState.new pid).dora_indicators = [] ∧
    (PlayerState.new pid).riichi_declared = [false, false, false, false] ∧
    (PlayerState.new pid).riichi_accepted = [false, false, false, false] ∧
    (PlayerState.new pid).at_furiten = false ∧
    (PlayerState.new pid).to_mark_same_cycle_furiten = false ∧
    (PlayerState.new pid).furiten_permanent = false ∧
    (PlayerState.new pid).last_cans.can_act = false ∧
    (∀ a : Action, actionInCandidates (PlayerState.new pid) a = false) := by
  refine ⟨rfl, rfl, rfl, rfl, fun t => rfl, rfl, rfl, rfl, rfl, rfl, rfl, rfl, rfl,
    rfl, rfl, rfl, rfl, rfl, rfl, rfl, ?_⟩
  intro a
  cases a <;> rfl

end Mortal
